import Mathlib

/-!
Verification development for the ask-mcp repository (fruktoguo/ask-mcp).

The Python sources under verification are:
  * question_parser.py  — QuestionParser.parse_xml / validate_question
  * ui_handler.py       — ModernQuestionDialog (submit/cancel/escape/custom-option
                          handlers, drag-and-drop image handlers), UIHandler.show_question
  * fastmcp_server.py   — the ask_user_question boundary tool (thread wrapper,
                          result-container classification, response encoding)

Python strings are modelled as Lean `String`; Python `str.strip`, `str.startswith`,
`str.replace` and `"\n".join` are re-implemented below over `List Char` so that all
definitions evaluate inside the kernel.  Python `None` is modelled as `Option.none`,
Python exceptions as `Except.error`, and Python truthiness tests are made explicit
(`falsyOpt`, `truthyOptStr`).  External-library calls (the XML parser
`xml.etree.ElementTree.fromstring`, Qt widget internals) are modelled as explicit
inputs or as small documented functions.
-/

/-- Python `str.strip` whitespace set (ASCII part): space, tab, newline, carriage
return, vertical tab, form feed. -/
def isPySpace (c : Char) : Bool :=
  c == ' ' || c == '\t' || c == '\n' || c == '\r' || c == '\x0b' || c == '\x0c'

/-- Models Python `str.strip()`: drop leading and trailing whitespace. -/
def pystrip (s : String) : String :=
  ⟨((s.data.dropWhile isPySpace).reverse.dropWhile isPySpace).reverse⟩

/-- `listLead p l` is true when the list `p` occurs at the head of `l`. -/
def listLead : List Char → List Char → Bool
  | [], _ => true
  | _ :: _, [] => false
  | a :: as, b :: bs => if a = b then listLead as bs else false

/-- Models Python `s.startswith(p)`. -/
def pyStartsWith (s p : String) : Bool :=
  listLead p.data s.data

/-- Left-to-right, non-overlapping replacement of `pat` by `repl`, as Python
`str.replace` does (for a non-empty pattern).  The `Nat` argument is
structural-recursion fuel; called with `fuel = l.length` the zero-fuel branch
is unreachable, because the list shrinks by at least one element per step. -/
def listReplace (pat repl : List Char) : Nat → List Char → List Char
  | _, [] => []
  | 0, l => l
  | fuel + 1, c :: rest =>
    if pat ≠ [] ∧ listLead pat (c :: rest) = true then
      repl ++ listReplace pat repl fuel ((c :: rest).drop pat.length)
    else
      c :: listReplace pat repl fuel rest

/-- Models Python `s.replace(pat, repl)` (all occurrences). -/
def pyReplace (s pat repl : String) : String :=
  ⟨listReplace pat.data repl.data s.data.length s.data⟩

/-- Models Python `"\n".join(parts)`. -/
def joinLines : List String → String
  | [] => ""
  | [s] => s
  | s :: rest => s ++ "\n" ++ joinLines rest

/-- `strContains s t`: the string `t` occurs as a contiguous substring of `s`. -/
def strContains (s t : String) : Prop :=
  ∃ a b : String, s = a ++ t ++ b

/-- Python truthiness of an optional string: `None` and `""` are falsy. -/
def falsyOpt : Option String → Bool
  | none => true
  | some s => if s = "" then true else false

/-- Python truthiness of an optional string, positive form (used for
`if result_container["error"]:`-style tests). -/
def truthyOptStr : Option String → Bool
  | none => false
  | some s => if s = "" then false else true

/-- A choice-question option (`QuestionOption` in question_parser.py). -/
structure QuestionOption where
  value : String
  text : String
  deriving DecidableEq

/-- The parsed question value (`ParsedQuestion` in question_parser.py). -/
structure ParsedQuestion where
  question_type : String
  title : String
  content : String
  options : Option (List QuestionOption) := none
  deriving DecidableEq

/-- An XML element tree as produced by `xml.etree.ElementTree.fromstring`:
tag, attribute list, direct text, child elements. -/
inductive XmlNode where
  | elem (tag : String) (attrs : List (String × String)) (txt : Option String)
      (children : List XmlNode)

/-- The element's tag. -/
def XmlNode.tag : XmlNode → String
  | .elem t _ _ _ => t

/-- The element's attribute list. -/
def XmlNode.attrList : XmlNode → List (String × String)
  | .elem _ a _ _ => a

/-- The element's direct text (`elem.text` in ElementTree). -/
def XmlNode.textOf : XmlNode → Option String
  | .elem _ _ t _ => t

/-- The element's children. -/
def XmlNode.childrenOf : XmlNode → List XmlNode
  | .elem _ _ _ c => c

/-- Models `elem.get(key)`: look up an attribute. -/
def XmlNode.get (n : XmlNode) (key : String) : Option String :=
  (n.attrList.find? fun p => p.1 == key).map (·.2)

/-- Models `elem.find(tag)`: first direct child with the given tag. -/
def XmlNode.findTag (n : XmlNode) (t : String) : Option XmlNode :=
  n.childrenOf.find? fun c => c.tag == t

/-- Models `elem.findall(tag)`: all direct children with the given tag. -/
def XmlNode.findAllTag (n : XmlNode) (t : String) : List XmlNode :=
  n.childrenOf.filter fun c => c.tag == t

/-- The option-parsing loop of `QuestionParser.parse_xml` (question_parser.py
lines 78-88): each `<option>` must have a truthy `value` attribute and truthy
text, otherwise a `ValueError` is raised. -/
def parseOptions : List XmlNode → Except String (List QuestionOption)
  | [] => Except.ok []
  | e :: rest =>
    let value := e.get "value"
    if falsyOpt value then Except.error "选项必须包含 'value' 属性"
    else
      let txt := e.textOf
      if falsyOpt txt then Except.error "选项必须包含文本内容"
      else
        match parseOptions rest with
        | Except.error m => Except.error m
        | Except.ok l =>
            Except.ok ({ value := value.getD "", text := txt.getD "" } :: l)

/-- The body of `QuestionParser.parse_xml` after `ET.fromstring` succeeded
(question_parser.py lines 45-98); each raised `ValueError` message becomes an
`Except.error`. -/
def parse_xml_root (root : XmlNode) : Except String ParsedQuestion :=
  if root.tag ≠ "question" then Except.error "根元素必须是 'question'"
  else
    let qtype := root.get "type"
    if falsyOpt qtype then Except.error "缺少问题类型 'type' 属性"
    else
      let t := qtype.getD ""
      if ¬ (t = "qa" ∨ t = "choice") then Except.error "问题类型必须是 'qa' 或 'choice'"
      else
        match root.findTag "title" with
        | none => Except.error "缺少 'title' 元素"
        | some title_elem =>
          match root.findTag "content" with
          | none => Except.error "缺少 'content' 元素"
          | some content_elem =>
            let title := title_elem.textOf.getD ""
            let content := content_elem.textOf.getD ""
            if t = "choice" then
              match root.findTag "options" with
              | none => Except.error "选择题必须包含 'options' 元素"
              | some options_elem =>
                match parseOptions (options_elem.findAllTag "option") with
                | Except.error m => Except.error m
                | Except.ok opts =>
                  if opts = [] then Except.error "选择题必须至少包含一个选项"
                  else Except.ok { question_type := t, title := title,
                                   content := content, options := some opts }
            else Except.ok { question_type := t, title := title,
                             content := content, options := none }

/-- `QuestionParser.parse_xml`: the input is the result of
`ET.fromstring(xml_string.strip())` (`Except.error e` when the external XML
parser raised `ET.ParseError e`).  An `ET.ParseError` is wrapped as
`XML解析错误: …`, any `ValueError` raised by the structural checks is re-wrapped
as `问题解析失败: …` by the final `except Exception` handler. -/
def parse_xml (doc : Except String XmlNode) : Except String ParsedQuestion :=
  match doc with
  | Except.error e => Except.error ("XML解析错误: " ++ e)
  | Except.ok root =>
    match parse_xml_root root with
    | Except.error m => Except.error ("问题解析失败: " ++ m)
    | Except.ok q => Except.ok q

/-- `QuestionParser.validate_question` (question_parser.py lines 105-130). -/
def validate_question (q : ParsedQuestion) : Bool :=
  if pystrip q.title = "" then false
  else if pystrip q.content = "" then false
  else if q.question_type = "choice" then
    match q.options with
    | none => false
    | some opts =>
      if opts = [] then false
      else opts.all fun o =>
        if pystrip o.value = "" then false
        else if pystrip o.text = "" then false
        else true
  else true

/-- An image attachment record in MCP format, as stored in the `images` lists of
the text-edit widgets (ui_handler.py `insert_image` / `insert_image_from_file`):
`{"type": "image", "data": <base64>, "mimeType": <mime>}`. -/
structure ImageInfo where
  itype : String
  data : String
  mimeType : String
  deriving DecidableEq

/-- A value the dialog can resolve with and `UIHandler.show_question` can return:
either a plain Python string, or the structured dict
`{"text": …, "images": […]}` built by `get_content_with_images`. -/
inductive AnswerContent where
  | plain (s : String)
  | rich (text : String) (images : List ImageInfo)
  deriving DecidableEq

/-- `get_content_with_images` (ui_handler.py lines 252-263 and 561-571): a plain
string when no images were attached, otherwise the text-plus-images dict. -/
def get_content_with_images (text : String) (images : List ImageInfo) : AnswerContent :=
  if images = [] then AnswerContent.plain text else AnswerContent.rich text images

/-- The state of a `ModernQuestionDialog` (ui_handler.py).  `checkedId` is the id
of the checked button in the exclusive `choice_group` (`0 … options.length - 1`
for predefined options, `options.length` for the synthetic "其他" option);
`emitted` records the values sent through the `finished` signal in order. -/
structure DialogState where
  question : ParsedQuestion
  result : Option AnswerContent
  is_completed : Bool
  cancel_reason : Option String
  checkedId : Option Nat
  customText : String
  customImages : List ImageInfo
  textInputText : String
  textInputImages : List ImageInfo
  errorVisible : Bool
  errorText : String
  emitted : List (Option AnswerContent)
  deriving DecidableEq

/-- `ModernQuestionDialog.show_error` (ui_handler.py lines 1167-1173): display the
inline error label.  (The auto-hide timer is presentation only.) -/
def show_error (d : DialogState) (m : String) : DialogState :=
  { d with errorVisible := true, errorText := m }

/-- The common completion tail of `submit_answer` / the cancel paths: mark the
dialog completed, emit `self.result` on the `finished` signal and close. -/
def finishDialog (d : DialogState) : DialogState :=
  { d with is_completed := true, emitted := d.emitted ++ [d.result] }

/-- The dialog state right after `__init__` (ui_handler.py lines 587-604 and
`create_choice_input`): nothing resolved, no cancel reason, empty inputs; for a
choice question with at least one option the first radio is pre-checked
(ui_handler.py lines 830-832). -/
def init_dialog (q : ParsedQuestion) : DialogState :=
  { question := q, result := none, is_completed := false, cancel_reason := none,
    checkedId :=
      if q.question_type = "choice" ∧ (q.options.getD []).length > 0 then some 0 else none,
    customText := "", customImages := [], textInputText := "", textInputImages := [],
    errorVisible := false, errorText := "", emitted := [] }

/-- `ModernQuestionDialog.submit_answer` (ui_handler.py lines 1175-1228).
A rejected submit shows an inline error and returns early; a valid submit sets
`self.result`, marks the dialog completed and emits `finished`.  Exceptions
raised inside the handler (for instance indexing `options` out of range, or
`len(None)` when a choice dialog has no options list) are caught and shown as a
`提交失败: …` inline error. -/
def submit_answer (d : DialogState) : DialogState :=
  if d.question.question_type = "qa" then
    match get_content_with_images d.textInputText d.textInputImages with
    | AnswerContent.rich t imgs =>
      if pystrip t = "" ∧ imgs = [] then show_error d "请输入您的回答或添加图片"
      else finishDialog { d with result := some (AnswerContent.rich t imgs) }
    | AnswerContent.plain t =>
      if pystrip t = "" then show_error d "请输入您的回答"
      else finishDialog { d with result := some (AnswerContent.plain t) }
  else if d.question.question_type = "choice" then
    match d.checkedId with
    | none => show_error d "请选择一个选项"
    | some bid =>
      match d.question.options with
      | none => show_error d "提交失败: object of type 'NoneType' has no len()"
      | some opts =>
        if bid = opts.length then
          match get_content_with_images d.customText d.customImages with
          | AnswerContent.rich t imgs =>
            if pystrip t = "" ∧ imgs = [] then show_error d "请输入自定义选项内容或添加图片"
            else finishDialog { d with result := some (AnswerContent.rich t imgs) }
          | AnswerContent.plain t =>
            if pystrip t = "" then show_error d "请输入自定义选项内容"
            else finishDialog { d with result := some (AnswerContent.plain t) }
        else
          match opts[bid]? with
          | some opt => finishDialog { d with result := some (AnswerContent.plain opt.value) }
          | none => show_error d "提交失败: list index out of range"
  else finishDialog d

/-- `ModernQuestionDialog.cancel_dialog` (ui_handler.py lines 1230-1236): record
the button-click cancel reason, mark completed, emit `None`. -/
def cancel_dialog (d : DialogState) : DialogState :=
  { d with cancel_reason := some "[BUTTON]用户点击了取消按钮", is_completed := true,
           result := none, emitted := d.emitted ++ [none] }

/-- The `Qt.Key_Escape` branch of `ModernQuestionDialog.keyPressEvent`
(ui_handler.py lines 1238-1245): record the escape cancel reason, mark
completed, emit `None`. -/
def keyPressEvent_escape (d : DialogState) : DialogState :=
  { d with cancel_reason := some "[ESC]用户按了ESC键", is_completed := true,
           result := none, emitted := d.emitted ++ [none] }

/-- `ModernQuestionDialog.on_custom_changed` (ui_handler.py lines 1151-1165):
when the custom field holds non-blank text and the "其他" radio (button id
`len(options)`) is not checked, check it (the `toggled` signal is temporarily
disconnected, so no other handler runs).  The handler's `try/except` swallows
any exception (for instance when no choice UI exists), leaving the state
unchanged. -/
def on_custom_changed (d : DialogState) : DialogState :=
  if pystrip d.customText ≠ "" then
    match d.question.options with
    | none => d
    | some opts =>
      match d.checkedId with
      | some bid => if bid = opts.length then d else { d with checkedId := some opts.length }
      | none => { d with checkedId := some opts.length }
  else d

/-- Typing into the custom/"其他" field: the text changes and Qt fires
`textChanged`, which runs `on_custom_changed` (connected in
`create_choice_input`, ui_handler.py line 859). -/
def type_custom (d : DialogState) (s : String) : DialogState :=
  on_custom_changed { d with customText := s }

/-- The inputs `UIHandler.show_question` observes after its local event loop
ends: whether `on_finished` ran (`completed`), the first value emitted on
`finished` (`result`), whether the dialog reference was stored (`dialogRef`,
always true when construction succeeded), and the dialog's `cancel_reason`
attribute. -/
structure LoopResult where
  completed : Bool
  result : Option AnswerContent
  dialogRef : Bool
  cancel_reason : Option String

/-- The `LoopResult` produced by running the event loop against a dialog that
reached state `d`: `on_finished` ran iff something was emitted, and the loop is
quit by the first emission. -/
def loopResultOf (d : DialogState) : LoopResult :=
  { completed := ¬ d.emitted = [],
    result := (d.emitted.head?).getD none,
    dialogRef := true,
    cancel_reason := d.cancel_reason }

/-- `UIHandler.show_question` (ui_handler.py lines 1279-1341).  `exc` models an
exception escaping the `try` body (e.g. dialog construction failing); the
result is `Option`-typed because the Python signature is `Optional[str]` —
every actual return is non-`None`.  Note the truthiness test on
`cancel_reason`. -/
def show_question (exc : Option String) (lr : LoopResult) : Option AnswerContent :=
  match exc with
  | some e => some (AnswerContent.plain ("ERROR:[EXCEPTION]UIHandler异常: " ++ e))
  | none =>
    if lr.completed = false then
      some (AnswerContent.plain "CANCELLED:[HANDLER]对话框未正常完成交互")
    else
      match lr.result with
      | none =>
        if lr.dialogRef then
          if truthyOptStr lr.cancel_reason then
            some (AnswerContent.plain ("CANCELLED:" ++ lr.cancel_reason.getD ""))
          else
            some (AnswerContent.plain "ERROR:[HANDLER]对话框返回None但无取消原因，可能存在程序错误")
        else some (AnswerContent.plain "ERROR:[HANDLER]UIHandler中result为None且无对话框引用")
      | some r => some r

/-- The mutable `result_container` of `ask_user_question`
(fastmcp_server.py line 75). -/
structure ResultContainer where
  answer : Option AnswerContent
  error : Option String
  cancelled : Bool
  cancel_reason : Option String

/-- The `show_dialog` thread body of `ask_user_question` (fastmcp_server.py
lines 77-90): classify the value returned by `UIHandler.show_question` by its
string prefix.  `threadExc` models an exception escaping `show_question`
(caught by the thread's own `except`). -/
def show_dialog (exc : Option String) (lr : LoopResult) (threadExc : Option String) :
    ResultContainer :=
  match threadExc with
  | some e =>
    { answer := none, error := some ("[THREAD]线程异常: " ++ e),
      cancelled := false, cancel_reason := none }
  | none =>
    match show_question exc lr with
    | none =>
      { answer := none, error := some "[THREAD]线程中收到None结果，这不应该发生",
        cancelled := false, cancel_reason := none }
    | some (AnswerContent.plain s) =>
      if pyStartsWith s "CANCELLED:" then
        { answer := none, error := none, cancelled := true,
          cancel_reason := some (pyReplace s "CANCELLED:" "") }
      else if pyStartsWith s "ERROR:" then
        { answer := none, error := some (pyReplace s "ERROR:" ""),
          cancelled := false, cancel_reason := none }
      else
        { answer := some (AnswerContent.plain s), error := none,
          cancelled := false, cancel_reason := none }
    | some (AnswerContent.rich t imgs) =>
      { answer := some (AnswerContent.rich t imgs), error := none,
        cancelled := false, cancel_reason := none }

/-- Models CPython's `repr` of the image dict as interpolated by
`f"图片 {i} 数据 (MCP格式): {image}"` (fastmcp_server.py line 134), for strings
without quote or escape characters; dict keys appear in insertion order
(type, data, mimeType). -/
def pyDictRepr (img : ImageInfo) : String :=
  "\x7b'type': '" ++ img.itype ++ "', 'data': '" ++ img.data ++
    "', 'mimeType': '" ++ img.mimeType ++ "'\x7d"

/-- The per-image descriptor line (fastmcp_server.py lines 128-129), `i` is the
1-based index from `enumerate(images, 1)`. -/
def imageDescriptor (i : Nat) (img : ImageInfo) : String :=
  "图片 " ++ toString i ++ ": " ++ img.mimeType ++ " (大小: " ++
    toString img.data.length ++ " 字符的base64数据)"

/-- The per-image data line (fastmcp_server.py line 134). -/
def imageDataLine (i : Nat) (img : ImageInfo) : String :=
  "图片 " ++ toString i ++ " 数据 (MCP格式): " ++ pyDictRepr img

/-- The image loop of the rich-answer encoding (fastmcp_server.py lines
127-134): two lines per image, in order, indices starting at 1. -/
def image_parts (images : List ImageInfo) : List String :=
  images.enum.flatMap fun p => [imageDescriptor (p.1 + 1) p.2, imageDataLine (p.1 + 1) p.2]

/-- The `result_parts` list built for a text-plus-images answer
(fastmcp_server.py lines 113-138). -/
def rich_parts (q : ParsedQuestion) (text : String) (images : List ImageInfo) :
    List String :=
  (if pystrip text = "" then [] else ["用户回答: " ++ pystrip text])
  ++ (if images = [] then []
      else ("用户提供了 " ++ toString images.length ++ " 张图片:") :: image_parts images)
  ++ (if q.question_type = "choice" then ["这是选择题的自定义选项回答。"] else [])

/-- The answer-encoding tail of `ask_user_question` (fastmcp_server.py lines
111-154): a dict answer is itemized (text, image descriptors, choice note); a
string answer becomes `用户回答: …`, and for a choice question whose options
list is truthy the matching option's label is appended. -/
def encode_answer (q : ParsedQuestion) (ans : AnswerContent) : String :=
  match ans with
  | AnswerContent.rich t imgs => joinLines (rich_parts q t imgs)
  | AnswerContent.plain s =>
    let base := "用户回答: " ++ s
    if q.question_type = "choice" then
      match q.options with
      | none => base
      | some opts =>
        if opts = [] then base
        else
          match opts.find? (fun o => o.value == s) with
          | some o => base ++ "\n选择的选项: " ++ o.text
          | none => base
    else base

/-- Models `len(question.options) if question.options else 0`
(fastmcp_server.py line 72). -/
def optionsCount : Option (List QuestionOption) → Nat
  | none => 0
  | some l => l.length

/-- The boundary tool `ask_user_question` (fastmcp_server.py lines 27-161).
Inputs: the raw question document `raw` and its external XML-parse result
`doc`, plus the interaction outcome (`exc`: exception inside
`UIHandler.show_question`'s try body; `lr`: what the dialog's event loop
produced; `threadExc`: exception escaping `show_question` in the worker
thread).  Every failure path is returned as a string — the function body has
no raise; the outer `except` handlers of the Python source are therefore
unreachable in this model. -/
def ask_user_question (raw : String) (doc : Except String XmlNode)
    (exc : Option String) (lr : LoopResult) (threadExc : Option String) : String :=
  match parse_xml doc with
  | Except.error e =>
    "❌ XML解析失败: " ++ e ++ "\n\n请检查XML格式是否正确。\n\n提供的XML:\n" ++ raw
  | Except.ok question =>
    if validate_question question then
      let rc := show_dialog exc lr threadExc
      if truthyOptStr rc.error then
        "❌ 显示问题对话框时出错: " ++ rc.error.getD ""
      else if rc.cancelled then
        "⚠️ 用户取消了回答。详细原因: " ++ rc.cancel_reason.getD "[UNKNOWN]未知的取消原因"
      else
        match rc.answer with
        | none => "❌ 程序错误: 结果容器中answer为None，但没有错误或取消标记"
        | some ans => encode_answer question ans
    else
      "❌ 问题数据验证失败，请检查问题内容是否完整。\n\n解析结果:\n- 类型: "
        ++ question.question_type ++ "\n- 标题: " ++ question.title
        ++ "\n- 内容: " ++ question.content ++ "\n- 选项数量: "
        ++ toString (optionsCount question.options)

/-- A URL in dropped/pasted MIME data.  `isImageFile` models
`is_image_file(url.toLocalFile())`, i.e. whether `mimetypes.guess_type` yields
an `image/*` type for the path; `loaded` models what
`insert_image_from_file` would append for this path (`none` when the file is
missing, oversized, unreadable or not a loadable image — all silently
skipped). -/
structure MimeUrl where
  isLocal : Bool
  isImageFile : Bool
  loaded : Option ImageInfo
  deriving DecidableEq

/-- Dropped/pasted MIME data as observed through the Qt accessors used by the
handlers: `hasImage()`, `urls()`, and the plain-text payload (`hasText()` /
`text()`).  `image` is the PNG attachment record that `insert_image` would
store for `imageData()` (`none` when the image data is null or unsavable —
silently skipped). -/
structure MimeData where
  hasImg : Bool
  image : Option ImageInfo
  urls : List MimeUrl
  textPayload : Option String
  deriving DecidableEq

/-- The text and attachment state of an image-supporting text edit
(`ImageSupportedTextEdit` / `AutoResizeTextEdit`): the document's plain text
and the widget's `images` list. -/
structure EditState where
  text : String
  images : List ImageInfo
  deriving DecidableEq

/-- `has_image_urls` (ui_handler.py lines 112-120 and 449-460): some URL is a
local image file. -/
def has_image_urls (m : MimeData) : Bool :=
  m.urls.any fun u => u.isLocal && u.isImageFile

/-- `insert_image` (ui_handler.py lines 130-180 and 470-508): append the
PNG-encoded attachment record to `self.images` (and render it inline);
invalid/unsavable image data is skipped without error. -/
def insert_image (st : EditState) (img : Option ImageInfo) : EditState :=
  match img with
  | some i => { st with images := st.images ++ [i] }
  | none => st

/-- `insert_image_from_file` (ui_handler.py lines 182-250 and 510-559): append
the file's attachment record; missing/oversized/unloadable files are skipped
without error. -/
def insert_image_from_file (st : EditState) (u : MimeUrl) : EditState :=
  match u.loaded with
  | some i => { st with images := st.images ++ [i] }
  | none => st

/-- The first local image-file URL, as found by the
`for url in …: if url.isLocalFile() and self.is_image_file(…)` loops. -/
def firstImageUrl (urls : List MimeUrl) : Option MimeUrl :=
  urls.find? fun u => u.isLocal && u.isImageFile

/-- Models the Qt base class `QTextEdit.insertFromMimeData` for a widget
configured with `setAcceptRichText(False)`: insert the plain-text payload when
the MIME data carries one, otherwise do nothing.  (The base class never touches
the subclass's `images` attribute.) -/
def superInsertFromMimeData (m : MimeData) (st : EditState) : EditState :=
  match m.textPayload with
  | some t => { st with text := st.text ++ t }
  | none => st

/-- The overridden `insertFromMimeData` (ui_handler.py lines 387-408; the
lines-35-69 variant takes the same branches on file drops): image data first,
then the first local image-file URL, otherwise fall through to the base
class. -/
def insertFromMimeData (m : MimeData) (st : EditState) : EditState :=
  if m.hasImg then insert_image st m.image
  else
    match firstImageUrl m.urls with
    | some u => insert_image_from_file st u
    | none => superInsertFromMimeData m st

/-- Models the Qt base class `QTextEdit.dropEvent`: it performs the insertion
through `insertFromMimeData`, which dispatches to the override above. -/
def superDropEvent (m : MimeData) (st : EditState) : EditState :=
  insertFromMimeData m st

/-- The overridden `dropEvent` (ui_handler.py lines 92-110 and 430-447): an
image drop is inserted, a drop containing a local image-file URL inserts the
first such file, anything else is delegated to the base class.  The whole
handler runs inside `try/except`, so no exception escapes. -/
def dropEvent (m : MimeData) (st : EditState) : EditState :=
  if m.hasImg then insert_image st m.image
  else if has_image_urls m then
    match firstImageUrl m.urls with
    | some u => insert_image_from_file st u
    | none => st
  else superDropEvent m st

/-- The QA example question used in the end-to-end theorems:
`<question type="qa"><title>T</title><content>C</content></question>`. -/
def qaAst : XmlNode :=
  .elem "question" [("type", "qa")] none
    [.elem "title" [] (some "T") [], .elem "content" [] (some "C") []]

/-- The parsed form of `qaAst`. -/
def qaQ : ParsedQuestion :=
  { question_type := "qa", title := "T", content := "C", options := none }

/-- A malformed QA document missing its `<content>` element. -/
def missingContentAst : XmlNode :=
  .elem "question" [("type", "qa")] none [.elem "title" [] (some "T") []]

/-- A CHOICE document in which the single option has an empty `value`
attribute. -/
def emptyValueChoiceAst : XmlNode :=
  .elem "question" [("type", "choice")] none
    [.elem "title" [] (some "T") [], .elem "content" [] (some "C") [],
     .elem "options" [] none [.elem "option" [("value", "")] (some "A") []]]

/-- The CHOICE document of the end-to-end scenario:
`<question type="choice"><title>T</title><content>C</content><options><option value="a">A</option></options></question>`. -/
def choiceAst : XmlNode :=
  .elem "question" [("type", "choice")] none
    [.elem "title" [] (some "T") [], .elem "content" [] (some "C") [],
     .elem "options" [] none [.elem "option" [("value", "a")] (some "A") []]]

/-- The parsed form of `choiceAst`. -/
def choiceQ : ParsedQuestion :=
  { question_type := "choice", title := "T", content := "C",
    options := some [{ value := "a", text := "A" }] }

/-- An arbitrary event-loop outcome used to instantiate theorems whose
conclusion does not depend on the interaction. -/
def anyLoop : LoopResult :=
  { completed := true, result := none, dialogRef := true, cancel_reason := none }

/-- A sample PNG attachment record (base64 payload `QUJD`). -/
def imgSample : ImageInfo :=
  { itype := "image", data := "QUJD", mimeType := "image/png" }

/-- MIME data of a dropped non-image file that carries no plain-text
payload. -/
def dropMimeNoText : MimeData :=
  { hasImg := false, image := none,
    urls := [{ isLocal := true, isImageFile := false, loaded := none }],
    textPayload := none }

/-- MIME data of a dropped non-image file whose MIME data also carries a
plain-text rendering (the file URL), as file managers commonly provide. -/
def dropMimeWithText : MimeData :=
  { hasImg := false, image := none,
    urls := [{ isLocal := true, isImageFile := false, loaded := none }],
    textPayload := some "file:///tmp/notes.txt" }

/-- An empty input surface. -/
def editSt0 : EditState := { text := "", images := [] }

theorem str_data_append (a b : String) : (a ++ b).data = a.data ++ b.data := by
  rcases a with ⟨a⟩; rcases b with ⟨b⟩; rfl

theorem str_append_assoc (a b c : String) : a ++ b ++ c = a ++ (b ++ c) := by
  rcases a with ⟨a⟩; rcases b with ⟨b⟩; rcases c with ⟨c⟩
  show String.mk ((a ++ b) ++ c) = String.mk (a ++ (b ++ c))
  rw [List.append_assoc]

theorem str_append_empty (a : String) : a ++ "" = a := by
  rcases a with ⟨a⟩
  show String.mk (a ++ []) = String.mk a
  rw [List.append_nil]

theorem strContains_intro (a t b s : String) (h : s = a ++ t ++ b) :
    strContains s t := ⟨a, b, h⟩

deriving instance DecidableEq for Except

theorem str_append_ne_empty_left (a b : String) (ha : a ≠ "") : a ++ b ≠ "" := by
  intro h
  apply ha
  have h2 := congrArg String.data h
  rw [str_data_append] at h2
  have h3 := (List.append_eq_nil.mp h2).1
  rcases a with ⟨a⟩
  cases h3
  rfl

/-- C1: for every input, `ask_user_question` returns a string and never raises.
When the question document is malformed, the returned value is the rejection
message, which echoes the offending input; when the dialog thread raises, the
exception is converted into an error-text return value.  (In this embedding
every failure path of the Python body is already a returned value; the
function is total by construction.) -/
theorem c1_boundary_never_raises (raw : String) (doc : Except String XmlNode)
    (exc : Option String) (lr : LoopResult) (threadExc : Option String) :
    (∀ e, parse_xml doc = Except.error e →
      ask_user_question raw doc exc lr threadExc
        = "❌ XML解析失败: " ++ e ++ "\n\n请检查XML格式是否正确。\n\n提供的XML:\n" ++ raw
      ∧ strContains (ask_user_question raw doc exc lr threadExc) raw)
    ∧ (∀ q m, parse_xml doc = Except.ok q → validate_question q = true →
        threadExc = some m →
        ask_user_question raw doc exc lr threadExc
          = "❌ 显示问题对话框时出错: " ++ ("[THREAD]线程异常: " ++ m)) := by
  constructor
  · intro e he
    have hout : ask_user_question raw doc exc lr threadExc
        = "❌ XML解析失败: " ++ e ++ "\n\n请检查XML格式是否正确。\n\n提供的XML:\n" ++ raw := by
      unfold ask_user_question
      rw [he]
    refine ⟨hout, ?_⟩
    refine strContains_intro
      ("❌ XML解析失败: " ++ e ++ "\n\n请检查XML格式是否正确。\n\n提供的XML:\n") raw "" _ ?_
    rw [str_append_empty, hout]
  · intro q m hq hv ht
    have hne : ("[THREAD]线程异常: " ++ m) ≠ "" :=
      str_append_ne_empty_left _ _ (by decide)
    unfold ask_user_question
    rw [hq]
    simp only [hv, if_true]
    unfold show_dialog
    rw [ht]
    simp [truthyOptStr, hne]

/-- C1 witness: at the concrete malformed document missing `<content>` the
boundary returns the echoing rejection message, and at a concrete thread
exception it returns the error-text value. -/
theorem c1_boundary_never_raises_witness :
    (ask_user_question "<q>" (Except.ok missingContentAst) none anyLoop none
        = "❌ XML解析失败: " ++ "问题解析失败: 缺少 'content' 元素"
            ++ "\n\n请检查XML格式是否正确。\n\n提供的XML:\n" ++ "<q>"
      ∧ strContains
          (ask_user_question "<q>" (Except.ok missingContentAst) none anyLoop none) "<q>")
    ∧ ask_user_question "<q>" (Except.ok qaAst) none anyLoop (some "boom")
        = "❌ 显示问题对话框时出错: " ++ ("[THREAD]线程异常: " ++ "boom") :=
  ⟨(c1_boundary_never_raises "<q>" (Except.ok missingContentAst) none anyLoop none).1
      "问题解析失败: 缺少 'content' 元素" (by decide),
   (c1_boundary_never_raises "<q>" (Except.ok qaAst) none anyLoop (some "boom")).2
      qaQ "boom" (by decide) (by decide) rfl⟩

/-- C2 counterexample: a QA answer whose typed text begins with the
cancellation marker is reported to the caller as a cancellation.  The user
submits the text `CANCELLED:x` (the dialog resolves with it as the answer and
records no cancel reason), yet the boundary reports `用户取消了回答`. -/
theorem c2_sentinel_ambiguity_cex :
    (submit_answer { init_dialog qaQ with textInputText := "CANCELLED:x" }).result
      = some (AnswerContent.plain "CANCELLED:x")
    ∧ (submit_answer { init_dialog qaQ with textInputText := "CANCELLED:x" }).cancel_reason
      = none
    ∧ ask_user_question "<q>" (Except.ok qaAst) none
        (loopResultOf (submit_answer { init_dialog qaQ with textInputText := "CANCELLED:x" }))
        none
      = "⚠️ 用户取消了回答。详细原因: x" := by
  decide

/-- C2 amended: the outcome classification of `show_dialog` is by string
prefix, not by what actually happened — the interaction is reported as a
cancellation exactly when the value returned by `show_question` is a plain
string starting with `CANCELLED:`, which covers genuine cancellations but
also any submitted answer text that begins with that marker. -/
theorem c2_prefix_classification (exc : Option String) (lr : LoopResult)
    (threadExc : Option String) :
    (show_dialog exc lr threadExc).cancelled = true ↔
      threadExc = none ∧
        ∃ s, show_question exc lr = some (AnswerContent.plain s)
          ∧ pyStartsWith s "CANCELLED:" = true := by
  cases threadExc with
  | some e => simp [show_dialog]
  | none =>
    cases hsq : show_question exc lr with
    | none => simp [show_dialog, hsq]
    | some c =>
      cases c with
      | plain s =>
        by_cases hc : pyStartsWith s "CANCELLED:" = true
        · simp [show_dialog, hsq, hc]
        · by_cases he : pyStartsWith s "ERROR:" = true
          · simp [show_dialog, hsq, hc, he]
          · simp [show_dialog, hsq, hc, he]
      | rich t imgs => simp [show_dialog, hsq]

/-- C3 counterexample: for the CHOICE document whose single option has an
empty `value` attribute, `parse_xml` does not succeed — the option check
`if not value` already fails at parse time. -/
theorem c3_parse_rejects_empty_value_cex :
    parse_xml (Except.ok emptyValueChoiceAst)
      = Except.error "问题解析失败: 选项必须包含 'value' 属性" := by
  decide

/-- C3 amended: a CHOICE document with an empty option `value` is rejected by
`parse_xml` itself (the parser's option checks test truthiness, so an empty
value fails like a missing one); `validate_question`, applied to a CHOICE
question value containing an option with a blank value, returns false. -/
theorem c3_empty_value_amended :
    parse_xml (Except.ok emptyValueChoiceAst)
      = Except.error "问题解析失败: 选项必须包含 'value' 属性"
    ∧ ∀ (q : ParsedQuestion) (opts : List QuestionOption) (o : QuestionOption),
        q.question_type = "choice" → q.options = some opts → o ∈ opts →
        pystrip o.value = "" → validate_question q = false := by
  refine ⟨by decide, ?_⟩
  intro q opts o hq hopts hmem hval
  unfold validate_question
  by_cases h1 : pystrip q.title = ""
  · simp [h1]
  · by_cases h2 : pystrip q.content = ""
    · simp [h1, h2]
    · have hne : opts ≠ [] := by
        intro h
        rw [h] at hmem
        cases hmem
      simp only [h1, if_false, h2, hq, if_true, hopts, hne]
      cases hall : opts.all fun o =>
          if pystrip o.value = "" then false
          else if pystrip o.text = "" then false else true with
      | false => simp [hall, hne]
      | true =>
        exfalso
        have := List.all_eq_true.mp hall o hmem
        rw [hval] at this
        simp at this

theorem on_custom_changed_question (d : DialogState) :
    (on_custom_changed d).question = d.question := by
  unfold on_custom_changed
  by_cases h : pystrip d.customText ≠ ""
  · simp only [if_pos h]
    cases d.question.options with
    | none => rfl
    | some opts =>
      cases d.checkedId with
      | none => rfl
      | some bid =>
        by_cases hb : bid = opts.length
        · simp [hb]
        · simp [hb]
  · simp only [if_neg h]

theorem on_custom_changed_checkedId_of (d : DialogState) (opts : List QuestionOption)
    (hopts : d.question.options = some opts) (h : pystrip d.customText ≠ "") :
    (on_custom_changed d).checkedId = some opts.length := by
  unfold on_custom_changed
  simp only [if_pos h, hopts]
  cases hc : d.checkedId with
  | none => simp
  | some bid =>
    by_cases hb : bid = opts.length
    · simp [hb, hc]
    · simp [hb]

theorem on_custom_changed_keeps_checked (d : DialogState) (opts : List QuestionOption)
    (hopts : d.question.options = some opts) (hck : d.checkedId = some opts.length) :
    (on_custom_changed d).checkedId = some opts.length := by
  unfold on_custom_changed
  by_cases h : pystrip d.customText ≠ ""
  · simp only [if_pos h, hopts, hck]
    simp
    exact hck
  · simp only [if_neg h]
    exact hck

/-- C4: in a CHOICE dialog, typing non-blank text into the custom/"其他" field
(without clicking its radio control) makes the custom option (button id
`opts.length`) the active selection, and typing any further text leaves the
custom option active. -/
theorem c4_typing_selects_custom (d : DialogState) (opts : List QuestionOption)
    (s t : String) (hq : d.question.question_type = "choice")
    (hopts : d.question.options = some opts) (hs : pystrip s ≠ "") :
    (type_custom d s).checkedId = some opts.length
    ∧ (type_custom (type_custom d s) t).checkedId = some opts.length := by
  have h1 : (type_custom d s).checkedId = some opts.length := by
    apply on_custom_changed_checkedId_of { d with customText := s } opts
    · exact hopts
    · exact hs
  refine ⟨h1, ?_⟩
  show (on_custom_changed { type_custom d s with customText := t }).checkedId
      = some opts.length
  apply on_custom_changed_keeps_checked _ opts
  · show (type_custom d s).question.options = some opts
    unfold type_custom
    rw [on_custom_changed_question]
    exact hopts
  · exact h1

/-- C4 witness: the single-option CHOICE question; typing `x` selects the
custom option (id 1), typing `xy` afterwards keeps it selected. -/
theorem c4_typing_selects_custom_witness :
    (type_custom (init_dialog choiceQ) "x").checkedId = some 1
    ∧ (type_custom (type_custom (init_dialog choiceQ) "x") "xy").checkedId = some 1 :=
  have h := c4_typing_selects_custom (init_dialog choiceQ)
    [{ value := "a", text := "A" }] "x" "xy" rfl rfl (by decide)
  ⟨h.1, h.2⟩

/-- C5 counterexample: `" "` is non-empty text, yet submitting it (with no
images) does not resolve the dialog — the submit is rejected because the code
tests the stripped text. -/
theorem c5_blank_text_cex :
    (" " : String) ≠ ""
    ∧ (submit_answer { init_dialog qaQ with textInputText := " " }).is_completed = false
    ∧ (submit_answer { init_dialog qaQ with textInputText := " " }).result = none
    ∧ (submit_answer { init_dialog qaQ with textInputText := " " }).emitted = []
    ∧ (submit_answer { init_dialog qaQ with textInputText := " " }).errorVisible = true := by
  decide

/-- C5 amended: for a QA dialog, a submit with empty text and no attached
images is rejected — the inline error is shown and the dialog state is
otherwise unchanged (still unresolved, nothing emitted) — while a submit with
non-blank (non-empty after stripping) text and no attached images resolves the
dialog exactly once with a plain-text answer carrying that text. -/
theorem c5_qa_submit (d : DialogState) (hq : d.question.question_type = "qa") :
    (d.textInputText = "" → d.textInputImages = [] →
      submit_answer d = show_error d "请输入您的回答"
      ∧ (submit_answer d).is_completed = d.is_completed
      ∧ (submit_answer d).result = d.result
      ∧ (submit_answer d).emitted = d.emitted
      ∧ (submit_answer d).errorVisible = true)
    ∧ (pystrip d.textInputText ≠ "" → d.textInputImages = [] →
      submit_answer d
        = finishDialog { d with result := some (AnswerContent.plain d.textInputText) }
      ∧ (submit_answer d).is_completed = true
      ∧ (submit_answer d).result = some (AnswerContent.plain d.textInputText)
      ∧ (submit_answer d).emitted
          = d.emitted ++ [some (AnswerContent.plain d.textInputText)]) := by
  constructor
  · intro ht hi
    have hps : pystrip "" = "" := by decide
    have hrej : submit_answer d = show_error d "请输入您的回答" := by
      unfold submit_answer get_content_with_images
      simp [hq, hi, ht, hps]
    rw [hrej]
    exact ⟨rfl, rfl, rfl, rfl, rfl⟩
  · intro hs hi
    have hacc : submit_answer d
        = finishDialog { d with result := some (AnswerContent.plain d.textInputText) } := by
      unfold submit_answer get_content_with_images
      simp [hq, hi, hs]
    rw [hacc]
    exact ⟨rfl, rfl, rfl, rfl⟩

/-- C5 witness: the empty submit shows the inline error without resolving;
the `hi` submit resolves with the plain-text answer and emits it once. -/
theorem c5_qa_submit_witness :
    (submit_answer (init_dialog qaQ)).errorVisible = true
    ∧ (submit_answer (init_dialog qaQ)).emitted = []
    ∧ (submit_answer { init_dialog qaQ with textInputText := "hi" }).result
        = some (AnswerContent.plain "hi")
    ∧ (submit_answer { init_dialog qaQ with textInputText := "hi" }).emitted
        = [some (AnswerContent.plain "hi")] :=
  ⟨((c5_qa_submit (init_dialog qaQ) rfl).1 rfl rfl).2.2.2.2,
   ((c5_qa_submit (init_dialog qaQ) rfl).1 rfl rfl).2.2.2.1,
   ((c5_qa_submit { init_dialog qaQ with textInputText := "hi" } rfl).2
      (by decide) rfl).2.2.1,
   ((c5_qa_submit { init_dialog qaQ with textInputText := "hi" } rfl).2
      (by decide) rfl).2.2.2⟩

/-- C6: the end-to-end CHOICE scenario.  The document parses to exactly one
option; the dialog pre-selects it, and submitting resolves to the option's
value `a`; the encoded caller response contains both the value `a` and the
label `A`. -/
theorem c6_choice_end_to_end :
    parse_xml (Except.ok choiceAst) = Except.ok choiceQ
    ∧ (choiceQ.options.getD []).length = 1
    ∧ (init_dialog choiceQ).checkedId = some 0
    ∧ (submit_answer (init_dialog choiceQ)).result = some (AnswerContent.plain "a")
    ∧ (submit_answer (init_dialog choiceQ)).is_completed = true
    ∧ ask_user_question
        "<question type=\"choice\"><title>T</title><content>C</content><options><option value=\"a\">A</option></options></question>"
        (Except.ok choiceAst) none
        (loopResultOf (submit_answer (init_dialog choiceQ))) none
      = "用户回答: a\n选择的选项: A"
    ∧ strContains
        (ask_user_question
          "<question type=\"choice\"><title>T</title><content>C</content><options><option value=\"a\">A</option></options></question>"
          (Except.ok choiceAst) none
          (loopResultOf (submit_answer (init_dialog choiceQ))) none) "a"
    ∧ strContains
        (ask_user_question
          "<question type=\"choice\"><title>T</title><content>C</content><options><option value=\"a\">A</option></options></question>"
          (Except.ok choiceAst) none
          (loopResultOf (submit_answer (init_dialog choiceQ))) none) "A" := by
  refine ⟨by decide, by decide, by decide, by decide, by decide, by decide, ?_, ?_⟩
  · exact strContains_intro "用户回答: " "a" "\n选择的选项: A" _ (by decide)
  · exact strContains_intro "用户回答: a\n选择的选项: " "A" "" _ (by decide)

/-- C3 witness: the amended claim at the concrete rejected document and at a
concrete CHOICE question value with a blank option value. -/
theorem c3_empty_value_amended_witness :
    parse_xml (Except.ok emptyValueChoiceAst)
      = Except.error "问题解析失败: 选项必须包含 'value' 属性"
    ∧ validate_question
        { question_type := "choice", title := "T", content := "C",
          options := some [{ value := "", text := "A" }] } = false :=
  ⟨c3_empty_value_amended.1,
   c3_empty_value_amended.2
     { question_type := "choice", title := "T", content := "C",
       options := some [{ value := "", text := "A" }] }
     [{ value := "", text := "A" }] { value := "", text := "A" }
     rfl rfl (by decide) (by decide)⟩

/-- C7: encoding a rich answer with text `hello` and exactly one image for a QA
question yields a response that contains the literal substring `hello` and
exactly one image descriptor line (the response is fully characterized:
one descriptor and one data line for the single image), and the descriptor
contains the image's mime type together with the size indicator; the data line
carries the base64 payload. -/
theorem c7_rich_roundtrip (q : ParsedQuestion) (img : ImageInfo)
    (hq : q.question_type = "qa") :
    encode_answer q (AnswerContent.rich "hello" [img])
      = "用户回答: hello" ++ "\n" ++ ("用户提供了 1 张图片:" ++ "\n"
          ++ (imageDescriptor 1 img ++ "\n" ++ imageDataLine 1 img))
    ∧ rich_parts q "hello" [img]
      = ["用户回答: hello", "用户提供了 1 张图片:",
         imageDescriptor 1 img, imageDataLine 1 img]
    ∧ strContains (encode_answer q (AnswerContent.rich "hello" [img])) "hello"
    ∧ strContains (imageDescriptor 1 img) img.mimeType := by
  have hps : pystrip "hello" = "hello" := by decide
  have hne : ("hello" : String) ≠ "" := by decide
  have hnc : q.question_type ≠ "choice" := by rw [hq]; decide
  have hsplit : ("用户回答: hello" : String) = "用户回答: " ++ "hello" := by decide
  have hip : image_parts [img] = [imageDescriptor 1 img, imageDataLine 1 img] := by
    simp [image_parts, List.enum]
  have hcount : ("用户提供了 " ++ toString (1 : Nat) ++ " 张图片:" : String)
      = "用户提供了 1 张图片:" := by decide
  have hrp : rich_parts q "hello" [img]
      = ["用户回答: hello", "用户提供了 1 张图片:",
         imageDescriptor 1 img, imageDataLine 1 img] := by
    unfold rich_parts
    rw [hps]
    simp [hne, hnc, hip, hcount, ← hsplit]
  have hout : encode_answer q (AnswerContent.rich "hello" [img])
      = "用户回答: hello" ++ "\n" ++ ("用户提供了 1 张图片:" ++ "\n"
          ++ (imageDescriptor 1 img ++ "\n" ++ imageDataLine 1 img)) := by
    show joinLines (rich_parts q "hello" [img]) = _
    rw [hrp]
    rfl
  refine ⟨hout, hrp, ?_, ?_⟩
  · refine strContains_intro "用户回答: " "hello"
      ("\n" ++ ("用户提供了 1 张图片:" ++ "\n"
        ++ (imageDescriptor 1 img ++ "\n" ++ imageDataLine 1 img))) _ ?_
    rw [hout, hsplit]
    exact str_append_assoc ("用户回答: " ++ "hello") "\n" _
  · refine strContains_intro ("图片 " ++ toString (1 : Nat) ++ ": ") img.mimeType
      (" (大小: " ++ toString img.data.length ++ " 字符的base64数据)") _ ?_
    unfold imageDescriptor
    simp [str_append_assoc]

/-- C7 witness: the round-trip at a concrete image attachment. -/
theorem c7_rich_roundtrip_witness :
    encode_answer qaQ (AnswerContent.rich "hello" [imgSample])
      = "用户回答: hello" ++ "\n" ++ ("用户提供了 1 张图片:" ++ "\n"
          ++ (imageDescriptor 1 imgSample ++ "\n" ++ imageDataLine 1 imgSample))
    ∧ strContains (encode_answer qaQ (AnswerContent.rich "hello" [imgSample])) "hello"
    ∧ strContains (imageDescriptor 1 imgSample) imgSample.mimeType :=
  ⟨(c7_rich_roundtrip qaQ imgSample rfl).1,
   (c7_rich_roundtrip qaQ imgSample rfl).2.2.1,
   (c7_rich_roundtrip qaQ imgSample rfl).2.2.2⟩

theorem cancelled_pipeline (raw : String) (doc : Except String XmlNode)
    (q : ParsedQuestion) (r : String)
    (hp : parse_xml doc = Except.ok q) (hv : validate_question q = true)
    (hr : pyStartsWith ("CANCELLED:" ++ r) "CANCELLED:" = true)
    (hrep : pyReplace ("CANCELLED:" ++ r) "CANCELLED:" "" = r)
    (hrne : r ≠ "") :
    ask_user_question raw doc none
      { completed := true, result := none, dialogRef := true, cancel_reason := some r }
      none
      = "⚠️ 用户取消了回答。详细原因: " ++ r := by
  unfold ask_user_question
  rw [hp]
  simp only [hv, if_true]
  unfold show_dialog show_question
  simp [truthyOptStr, hrne, hr, hrep]

/-- C8: the cancel button and the escape key both resolve the interaction to a
cancelled outcome, with distinct recorded reasons, and each reason is passed
through to the caller-visible cancellation message. -/
theorem c8_cancel_reasons (d : DialogState) (raw : String)
    (doc : Except String XmlNode) (q : ParsedQuestion) (hd : d.emitted = [])
    (hp : parse_xml doc = Except.ok q) (hv : validate_question q = true) :
    (cancel_dialog d).cancel_reason = some "[BUTTON]用户点击了取消按钮"
    ∧ (keyPressEvent_escape d).cancel_reason = some "[ESC]用户按了ESC键"
    ∧ (cancel_dialog d).cancel_reason ≠ (keyPressEvent_escape d).cancel_reason
    ∧ (cancel_dialog d).is_completed = true
    ∧ (cancel_dialog d).result = none
    ∧ (keyPressEvent_escape d).is_completed = true
    ∧ (keyPressEvent_escape d).result = none
    ∧ ask_user_question raw doc none (loopResultOf (cancel_dialog d)) none
        = "⚠️ 用户取消了回答。详细原因: " ++ "[BUTTON]用户点击了取消按钮"
    ∧ ask_user_question raw doc none (loopResultOf (keyPressEvent_escape d)) none
        = "⚠️ 用户取消了回答。详细原因: " ++ "[ESC]用户按了ESC键" := by
  have hlc : loopResultOf (cancel_dialog d)
      = { completed := true, result := none, dialogRef := true,
          cancel_reason := some "[BUTTON]用户点击了取消按钮" } := by
    unfold loopResultOf cancel_dialog
    simp [hd]
  have hle : loopResultOf (keyPressEvent_escape d)
      = { completed := true, result := none, dialogRef := true,
          cancel_reason := some "[ESC]用户按了ESC键" } := by
    unfold loopResultOf keyPressEvent_escape
    simp [hd]
  refine ⟨rfl, rfl, ?_, rfl, rfl, rfl, rfl, ?_, ?_⟩
  · show (some "[BUTTON]用户点击了取消按钮" : Option String) ≠ some "[ESC]用户按了ESC键"
    decide
  · rw [hlc]
    exact cancelled_pipeline raw doc q "[BUTTON]用户点击了取消按钮" hp hv
      (by decide) (by decide) (by decide)
  · rw [hle]
    exact cancelled_pipeline raw doc q "[ESC]用户按了ESC键" hp hv
      (by decide) (by decide) (by decide)

/-- C8 witness: both cancel triggers on the concrete QA dialog, with the two
distinct caller-visible messages. -/
theorem c8_cancel_reasons_witness :
    (cancel_dialog (init_dialog qaQ)).cancel_reason
      ≠ (keyPressEvent_escape (init_dialog qaQ)).cancel_reason
    ∧ ask_user_question "<q>" (Except.ok qaAst) none
        (loopResultOf (cancel_dialog (init_dialog qaQ))) none
      = "⚠️ 用户取消了回答。详细原因: " ++ "[BUTTON]用户点击了取消按钮"
    ∧ ask_user_question "<q>" (Except.ok qaAst) none
        (loopResultOf (keyPressEvent_escape (init_dialog qaQ))) none
      = "⚠️ 用户取消了回答。详细原因: " ++ "[ESC]用户按了ESC键" :=
  have h := c8_cancel_reasons (init_dialog qaQ) "<q>" (Except.ok qaAst) qaQ rfl
    (by decide) (by decide)
  ⟨h.2.2.1, h.2.2.2.2.2.2.2.1, h.2.2.2.2.2.2.2.2⟩

/-- C9 counterexample: a dropped non-image file whose MIME data also carries a
plain-text payload changes the text content — the non-image branch delegates
to the Qt base-class handler, which inserts the plain-text rendering.  (The
images list is still untouched.) -/
theorem c9_text_payload_cex :
    dropEvent dropMimeWithText editSt0 ≠ editSt0
    ∧ (dropEvent dropMimeWithText editSt0).text = "file:///tmp/notes.txt"
    ∧ (dropEvent dropMimeWithText editSt0).images = editSt0.images := by
  decide

/-- C9 amended: for every drop of a non-image payload (no image data, no local
image-file URL), no attachment is appended to the images list and no error is
raised (the handler catches every exception); the text and the whole state are
unchanged whenever the dropped MIME data carries no plain-text payload —
when it does, the base-class fallback inserts that text. -/
theorem c9_nonimage_drop (m : MimeData) (st : EditState)
    (hni : m.hasImg = false) (hnu : has_image_urls m = false) :
    (dropEvent m st).images = st.images
    ∧ (m.textPayload = none → dropEvent m st = st) := by
  have hfi : firstImageUrl m.urls = none := by
    unfold firstImageUrl
    rw [List.find?_eq_none]
    intro u hu hp
    have hany : m.urls.any (fun u => u.isLocal && u.isImageFile) = true :=
      List.any_eq_true.mpr ⟨u, hu, hp⟩
    rw [show m.urls.any (fun u => u.isLocal && u.isImageFile) = has_image_urls m
          from rfl, hnu] at hany
    cases hany
  have hdrop : dropEvent m st = superInsertFromMimeData m st := by
    unfold dropEvent superDropEvent insertFromMimeData
    simp [hni, hnu, hfi]
  constructor
  · rw [hdrop]
    unfold superInsertFromMimeData
    cases m.textPayload with
    | none => rfl
    | some t => rfl
  · intro htp
    rw [hdrop]
    unfold superInsertFromMimeData
    rw [htp]

/-- C9 witness: the concrete non-image drop with no text payload leaves the
state fully unchanged. -/
theorem c9_nonimage_drop_witness :
    (dropEvent dropMimeNoText editSt0).images = editSt0.images
    ∧ dropEvent dropMimeNoText editSt0 = editSt0 :=
  ⟨(c9_nonimage_drop dropMimeNoText editSt0 rfl (by decide)).1,
   (c9_nonimage_drop dropMimeNoText editSt0 rfl (by decide)).2 rfl⟩

/-- C10 counterexample: the defensive branch of `ask_user_question` for a
`None` answer with no error or cancel mark is reachable.  The user submits the
answer text `ERROR:` — the dialog resolves with it (no cancellation, no
failure), `show_question` returns it (non-`None`), but `show_dialog` strips
the `ERROR:` marker to an empty string, which is falsy in the
`if result_container["error"]:` test, so the boundary falls through to the
`程序错误` branch. -/
theorem c10_defensive_branch_reachable_cex :
    (submit_answer { init_dialog qaQ with textInputText := "ERROR:" }).result
      = some (AnswerContent.plain "ERROR:")
    ∧ (submit_answer { init_dialog qaQ with textInputText := "ERROR:" }).cancel_reason
      = none
    ∧ (show_question none
        (loopResultOf (submit_answer { init_dialog qaQ with textInputText := "ERROR:" }))).isSome
      = true
    ∧ ask_user_question "<q>" (Except.ok qaAst) none
        (loopResultOf (submit_answer { init_dialog qaQ with textInputText := "ERROR:" }))
        none
      = "❌ 程序错误: 结果容器中answer为None，但没有错误或取消标记" := by
  decide

/-- C10 amended: `UIHandler.show_question` always returns a non-`None` value —
every cancellation, error, and not-completed path is converted into a prefixed
string before returning, so `show_dialog`'s branch for a `None` answer is
unreachable; the defensive `None`-answer branch in `ask_user_question` is
nevertheless reachable (see the counterexample), because an answer of exactly
`ERROR:` strips to an empty, falsy error string. -/
theorem c10_show_question_never_none (exc : Option String) (lr : LoopResult) :
    (show_question exc lr).isSome = true := by
  unfold show_question
  cases exc with
  | some e => rfl
  | none =>
    by_cases hc : lr.completed = false
    · simp [hc]
    · simp only [hc, if_false]
      cases lr.result with
      | none =>
        by_cases hdr : lr.dialogRef = true
        · by_cases hcr : truthyOptStr lr.cancel_reason = true
          · simp [hdr, hcr]
          · simp [hdr, hcr]
        · simp [hdr]
      | some r => simp
